import Mathlib

/-!
Verification of the chirpy authentication and authorization subsystem.

The Go source is shallowly embedded: timestamps are `Nat` (seconds), user and
chirp ids are `Nat` (models `uuid.UUID`), the relational tables are Lean
lists of row structures, and each SQL query or HTTP handler becomes a pure
Lean function that threads the table state explicitly.  Cryptographic
primitives from external libraries (HMAC-SHA256 signing in golang-jwt,
bcrypt in golang.org/x/crypto) are modelled as ideal primitives: the tag or
hash is represented by the data that determines it, so equality of tags
models a successful MAC or hash verification.
-/

/-! ## JWT access tokens (internal/auth, MakeJWT / ValidateJWT) -/

/-- Registered claims set by MakeJWT: issuer, subject (the user id that the
code stores as a UUID string; parsing back always succeeds for tokens the
code itself mints, so the subject is carried directly), issued-at and
expires-at. -/
structure JwtClaims where
  issuer : String
  subject : Nat
  issuedAt : Nat
  expiresAt : Nat
deriving DecidableEq

/-- Ideal model of the HMAC-SHA256 tag over the encoded claims: the tag is
determined by (and determines) the signing secret and the signed claims. -/
structure JwtSig where
  secret : String
  claims : JwtClaims
deriving DecidableEq

/-- A serialized token: its claims plus the signature over them. -/
structure Jwt where
  claims : JwtClaims
  sig : JwtSig
deriving DecidableEq

/-- Failure modes of ValidateJWT: signature rejection, the jwt library's
expiry check, and the issuer check done by the auth package itself. -/
inductive JwtError where
  | signatureInvalid
  | expired
  | invalidIssuer
deriving DecidableEq

/-- MakeJWT (internal/auth): issuer "chirpy", issued-at now,
expires-at now + expiresIn, subject the user id, signed with the secret. -/
def MakeJWT (userID : Nat) (tokenSecret : String) (expiresIn : Nat)
    (now : Nat) : Jwt :=
  let claims : JwtClaims :=
    { issuer := "chirpy", subject := userID, issuedAt := now,
      expiresAt := now + expiresIn }
  { claims := claims, sig := { secret := tokenSecret, claims := claims } }

/-- ValidateJWT (internal/auth): the jwt library verifies the signature,
then validates the expires-at claim against now (valid iff now is strictly
before expires-at); the auth package then checks the issuer is "chirpy" and
parses the subject (which always succeeds for tokens of this model). -/
def ValidateJWT (tok : Jwt) (tokenSecret : String) (now : Nat) :
    Except JwtError Nat :=
  if tok.sig ≠ { secret := tokenSecret, claims := tok.claims } then
    .error .signatureInvalid
  else if ¬ now < tok.claims.expiresAt then
    .error .expired
  else if tok.claims.issuer ≠ "chirpy" then
    .error .invalidIssuer
  else
    .ok tok.claims.subject

/-! ## Go string helpers

Character-list models of the Go standard-library string functions the
handlers use; whitespace is modelled by Char.isWhitespace. -/

/-- Whether the second character list is an initial segment of the
first. -/
def startsWithL : List Char → List Char → Bool
  | _, [] => true
  | [], _ :: _ => false
  | c :: cs, p :: ps => c == p && startsWithL cs ps

/-- strings.TrimPrefix: the string without the leading occurrence of the
given prefix string; the string unchanged when it does not start with
it. -/
def goTrimPfx (s pre : String) : String :=
  if startsWithL s.data pre.data then ⟨s.data.drop pre.data.length⟩ else s

/-- strings.TrimSpace: the string with all leading and trailing
whitespace removed. -/
def goTrimSpace (s : String) : String :=
  ⟨(((s.data.dropWhile Char.isWhitespace).reverse.dropWhile
      Char.isWhitespace).reverse)⟩

/-- strings.ToLower on the characters of the string. -/
def goToLower (s : String) : String :=
  ⟨s.data.map Char.toLower⟩

/-- Accumulator loop of strings.Fields: splits the character list around
runs of whitespace, emitting the accumulated word (reversed) at each
whitespace boundary and at the end. -/
def goFieldsGo : List Char → List Char → List String
  | [], acc => if acc.isEmpty then [] else [⟨acc.reverse⟩]
  | c :: cs, acc =>
    if c.isWhitespace then
      if acc.isEmpty then goFieldsGo cs []
      else (⟨acc.reverse⟩ : String) :: goFieldsGo cs []
    else goFieldsGo cs (c :: acc)

/-- strings.Fields: the whitespace-separated fields of the string, with
no empty fields. -/
def goFields (s : String) : List String :=
  goFieldsGo s.data []

/-! ## Bearer extraction (internal/auth, GetBearerToken) -/

/-- strings.TrimPrefix tokenString "Bearer ": drops the scheme prefix
when present, otherwise returns the value unchanged. -/
def trimBearer (s : String) : String :=
  goTrimPfx s "Bearer "

/-- GetBearerToken (internal/auth): headers.Get("Authorization") yields ""
when the header is absent (or set to the empty string), which is the only
error case; otherwise the value has the "Bearer " prefix trimmed and
surrounding whitespace stripped, and is returned even if empty. -/
def GetBearerToken (authHeader : String) : Except String String :=
  if authHeader = "" then .error "No token string provided"
  else .ok (goTrimSpace (trimBearer authHeader))

/-! ## Refresh tokens (sql/queries/user.sql and postRefresh/postRevoke) -/

/-- A row of the refresh_tokens relation. -/
structure RefreshTokenRow where
  token : String
  createdAt : Nat
  updatedAt : Nat
  userID : Nat
  expiresAt : Nat
  revokedAt : Option Nat
deriving DecidableEq

/-- GetRefreshToken (user.sql): SELECT * FROM refresh_tokens WHERE
token = $1 AND revoked_at IS NULL AND expires_at > NOW(); a :one query,
so no matching row surfaces as sql.ErrNoRows, modelled by none. -/
def GetRefreshToken (db : List RefreshTokenRow) (tok : String) (now : Nat) :
    Option RefreshTokenRow :=
  db.find? fun r =>
    r.token == tok && r.revokedAt == none && decide (now < r.expiresAt)

/-- RevokeRefreshToken (user.sql): UPDATE refresh_tokens SET
revoked_at = NOW(), updated_at = NOW() WHERE token = $1; a :exec query
that succeeds whether or not any row matches. -/
def RevokeRefreshToken (db : List RefreshTokenRow) (tok : String)
    (now : Nat) : List RefreshTokenRow :=
  db.map fun r =>
    if r.token == tok then
      { r with revokedAt := some now, updatedAt := now }
    else r

/-- Body of postRefresh (main.go) after bearer extraction: look the token
up with GetRefreshToken; sql.ErrNoRows maps to status 401 with no token in
the body; a found row mints a one-hour (3600 s) JWT for the row's user and
answers 200.  The returned list is the refresh_tokens state afterwards. -/
def postRefreshCore (db : List RefreshTokenRow) (refreshToken : String)
    (secret : String) (now : Nat) :
    List RefreshTokenRow × Nat × Option Jwt :=
  match GetRefreshToken db refreshToken now with
  | none => (db, 401, none)
  | some row => (db, 200, some (MakeJWT row.userID secret 3600 now))

/-- postRefresh (main.go): GetBearerToken failure is 401, then the core
refresh flow runs on the extracted token. -/
def postRefreshHandler (db : List RefreshTokenRow) (authHeader : String)
    (secret : String) (now : Nat) :
    List RefreshTokenRow × Nat × Option Jwt :=
  match GetBearerToken authHeader with
  | .error _ => (db, 401, none)
  | .ok refreshToken => postRefreshCore db refreshToken secret now

/-- postRevoke (main.go), as the sequence of WriteHeader calls it makes:
bearer failure writes 401 and returns; otherwise RevokeRefreshToken runs
and a storage failure (revokeErr) writes 500 WITHOUT returning, after
which the final write of 204 executes unconditionally. -/
def postRevokeWrites (authHeader : String) (revokeErr : Bool) : List Nat :=
  match GetBearerToken authHeader with
  | .error _ => [401]
  | .ok _ => (if revokeErr then [500] else []) ++ [204]

/-! ## Passwords (internal/auth, HashPassword / CheckPasswordHash) -/

/-- Ideal model of a bcrypt credential as produced by
bcrypt.GenerateFromPassword: the stored cost and salt, plus a derived key
determined by (and, as an ideal one-way function, determining) the
password together with the salt and cost. -/
structure BcryptHash where
  cost : Nat
  salt : Nat
  key : String × Nat × Nat
deriving DecidableEq

/-- bcrypt.GenerateFromPassword with an explicit salt drawn by the
library. -/
def bcryptGenerateFromPassword (password : String) (cost salt : Nat) :
    BcryptHash :=
  { cost := cost, salt := salt, key := (password, salt, cost) }

/-- bcrypt.CompareHashAndPassword: re-derives the key from the candidate
password with the stored salt and cost and compares in constant time;
true models a nil error. -/
def bcryptCompareHashAndPassword (hash : BcryptHash) (password : String) :
    Bool :=
  hash.key == (password, hash.salt, hash.cost)

/-- HashPassword (internal/auth): wraps bcrypt.GenerateFromPassword at the
default cost; the salt is chosen by the library and threaded here as an
argument. -/
def HashPassword (password : String) (cost salt : Nat) : BcryptHash :=
  bcryptGenerateFromPassword password cost salt

/-- CheckPasswordHash (internal/auth): wraps
bcrypt.CompareHashAndPassword; true models a nil error. -/
def CheckPasswordHash (password : String) (hash : BcryptHash) : Bool :=
  bcryptCompareHashAndPassword hash password

/-! ## Users and login (user.sql and postLogin) -/

/-- A row of the users relation. -/
structure UserRow where
  id : Nat
  createdAt : Nat
  updatedAt : Nat
  email : String
  hashedPassword : BcryptHash
  isChirpyRed : Bool
deriving DecidableEq

/-- GetUserByEmail (user.sql): SELECT * FROM users WHERE email = $1; a
:one query, no row is sql.ErrNoRows, modelled by none. -/
def GetUserByEmail (db : List UserRow) (email : String) : Option UserRow :=
  db.find? fun r => r.email == email

/-- postLogin (main.go), as (status, body text, minted access token): a
GetUserByEmail error — including sql.ErrNoRows when the email matches no
user — takes the generic error branch and writes 500; a CheckPasswordHash
mismatch writes 401 with body "Incorrect email or password"; otherwise a
one-hour JWT is minted and 200 is written (the JSON user body and the
refresh-token insertion of the success path are elided as they play no
role in the failure-path comparison). -/
def postLogin (db : List UserRow) (email password : String)
    (secret : String) (now : Nat) : Nat × Option String × Option Jwt :=
  match GetUserByEmail db email with
  | none => (500, none, none)
  | some row =>
    if CheckPasswordHash password row.hashedPassword then
      (200, none, some (MakeJWT row.id secret 3600 now))
    else
      (401, some "Incorrect email or password", none)

/-! ## Chirps (postChirps, deleteChirpsChirpID, cleanString) -/

/-- A row of the chirps relation. -/
structure ChirpRow where
  id : Nat
  createdAt : Nat
  updatedAt : Nat
  body : String
  userID : Nat
deriving DecidableEq

/-- Modelled from the spec: the chirp SQL query file is not under src/
(only user.sql is); per the data model a Resource is selected by its
unique id, so GetChirp is select-by-id, sql.ErrNoRows (none) when no
chirp has that id. -/
def GetChirp (db : List ChirpRow) (chirpID : Nat) : Option ChirpRow :=
  db.find? fun c => c.id == chirpID

/-- Modelled from the spec: the chirp SQL query file is not under src/;
DeleteChirp removes exactly the row with the given id. -/
def DeleteChirp (db : List ChirpRow) (chirpID : Nat) : List ChirpRow :=
  db.filter fun c => c.id != chirpID

/-- deleteChirpsChirpID (main.go) after path parsing, with the combined
result of GetBearerToken and ValidateJWT passed as auth (none is either
failure, both answered 401): GetChirp runs first and sql.ErrNoRows is 404
before any authentication or ownership test; then a mismatch between the
chirp's owner and the authenticated user is 403 with no deletion; an
owner match deletes the chirp and answers 204. -/
def deleteChirpsChirpID (db : List ChirpRow) (chirpID : Nat)
    (auth : Option Nat) : List ChirpRow × Nat :=
  match GetChirp db chirpID with
  | none => (db, 404)
  | some ch =>
    match auth with
    | none => (db, 401)
    | some userID =>
      if ch.userID ≠ userID then (db, 403)
      else (DeleteChirp db chirpID, 204)

/-- One iteration of the outer loop of cleanString (main.go): rebuilds the
string from its fields, appending " ****" for a field whose lowercasing
equals the bad word b and " " ++ the field otherwise, starting from the
empty accumulator. -/
def cleanPass (b : String) (s : String) : String :=
  (goFields s).foldl
    (fun cleaned w =>
      if goToLower w == b then cleaned ++ " ****" else cleaned ++ " " ++ w)
    ""

/-- The bad-word list of cleanString (main.go). -/
def badWords : List String := ["kerfuffle", "sharbert", "fornax"]

/-- cleanString (main.go): for each bad word, s is replaced by the rebuilt
string (which always starts with a space when any field exists, and is
empty when s has no fields); the final Go expression is the byte slice
from index 1, which panics with a slice-bounds error when the resulting
string is empty — none models that panic. -/
def cleanString (s : String) : Option String :=
  let s1 := badWords.foldl (fun acc b => cleanPass b acc) s
  if s1 = "" then none else some (s1.drop 1)

/-- postChirps (main.go) after body decoding, with the combined
bearer-plus-JWT authentication result passed as auth: authentication
failure is 401, an empty body is 400, then cleanString runs (none, a
panic, aborts the handler with no response — the outer none); a cleaned
body of at most 140 bytes is inserted as a new chirp with 201, longer
bodies answer 400. -/
def postChirps (db : List ChirpRow) (body : String) (auth : Option Nat)
    (newID : Nat) (now : Nat) : Option (List ChirpRow × Nat) :=
  match auth with
  | none => some (db, 401)
  | some userID =>
    if body = "" then some (db, 400)
    else
      match cleanString body with
      | none => none
      | some cleaned =>
        if cleaned.utf8ByteSize ≤ 140 then
          some (db ++ [{ id := newID, createdAt := now, updatedAt := now,
                         body := cleaned, userID := userID }], 201)
        else
          some (db, 400)

/-! ## Theorems -/

/-- C4: for every user id u and every ttl t > 0, validating a token just
issued for u with ttl t under the same signing secret returns u; and at
any instant at or past issued-at + t, validating that same token fails
with the expiry error. -/
theorem validate_of_issue (u : Nat) (secret : String) (t now later : Nat)
    (ht : 0 < t) (hlater : now + t ≤ later) :
    ValidateJWT (MakeJWT u secret t now) secret now = .ok u ∧
    ValidateJWT (MakeJWT u secret t now) secret later =
      .error .expired := by
  constructor
  · simp [ValidateJWT, MakeJWT]
    omega
  · simp [ValidateJWT, MakeJWT]
    omega

/-- Witness for C4 at u = 7, secret "s3cret", ttl 3600, issued at 1000,
checked again at 4600 = 1000 + 3600. -/
theorem validate_of_issue_witness :
    0 < 3600 ∧ 1000 + 3600 ≤ 4600 ∧
    ValidateJWT (MakeJWT 7 "s3cret" 3600 1000) "s3cret" 1000 = .ok 7 ∧
    ValidateJWT (MakeJWT 7 "s3cret" 3600 1000) "s3cret" 4600 =
      .error .expired :=
  ⟨by decide, by decide,
    (validate_of_issue 7 "s3cret" 3600 1000 4600 (by decide) (by decide)).1,
    (validate_of_issue 7 "s3cret" 3600 1000 4600 (by decide) (by decide)).2⟩

/-- C5 counterexample: the claim predicts an error exactly when the header
is absent or the remainder after stripping is empty, but on the header
value "Bearer " the remainder is empty and GetBearerToken still returns
ok with the empty token, not an error. -/
theorem getBearerToken_claim_false :
    ¬ ∀ h : String,
        ((GetBearerToken h).isOk = false ↔
          (h = "" ∨ goTrimSpace (trimBearer h) = "")) := by
  intro hcl
  have h2 := (hcl "Bearer ").mpr (Or.inr (by decide))
  simp [GetBearerToken, Except.isOk, Except.toBool] at h2

/-- C5 amended: GetBearerToken errors exactly when the authorization
header is absent (the empty string); on any other value it totally
returns the header with the "Bearer " prefix (when present) stripped and
surrounding whitespace trimmed — possibly the empty token. -/
theorem getBearerToken_spec (h : String) :
    ((∃ e, GetBearerToken h = .error e) ↔ h = "") ∧
    (h ≠ "" → GetBearerToken h = .ok (goTrimSpace (trimBearer h))) := by
  refine ⟨⟨?_, ?_⟩, ?_⟩
  · rintro ⟨e, he⟩
    by_contra hne
    simp [GetBearerToken, hne] at he
  · intro h0
    exact ⟨"No token string provided", by simp [GetBearerToken, h0]⟩
  · intro h0
    simp [GetBearerToken, h0]

/-- Witness for C5's amended claim at the header value "Bearer abc". -/
theorem getBearerToken_spec_witness :
    ("Bearer abc" : String) ≠ "" ∧
    GetBearerToken "Bearer abc" =
      .ok (goTrimSpace (trimBearer "Bearer abc")) :=
  ⟨by decide, (getBearerToken_spec "Bearer abc").2 (by decide)⟩

/-- C8: verifying a password against the credential obtained by hashing
that same password succeeds, and verifying any distinct password against
it fails, for every cost and salt. -/
theorem check_of_hash (p p' : String) (cost salt : Nat) (hne : p ≠ p') :
    CheckPasswordHash p (HashPassword p cost salt) = true ∧
    CheckPasswordHash p' (HashPassword p cost salt) = false := by
  constructor
  · simp [CheckPasswordHash, HashPassword, bcryptGenerateFromPassword,
      bcryptCompareHashAndPassword]
  · simp [CheckPasswordHash, HashPassword, bcryptGenerateFromPassword,
      bcryptCompareHashAndPassword, hne]

/-- Witness for C8 at the passwords "hunter2" and "other". -/
theorem check_of_hash_witness :
    ("hunter2" : String) ≠ "other" ∧
    CheckPasswordHash "hunter2" (HashPassword "hunter2" 10 0) = true ∧
    CheckPasswordHash "other" (HashPassword "hunter2" 10 0) = false :=
  ⟨by decide,
    (check_of_hash "hunter2" "other" 10 0 (by decide)).1,
    (check_of_hash "hunter2" "other" 10 0 (by decide)).2⟩

/-- C9: in the revoke handler, whenever the authorization header is
present, the final 204 status write executes — it is the last write even
on the path where the storage update fails and a 500 was already written,
because that error branch does not return. -/
theorem postRevoke_always_writes_204 (authHeader : String)
    (revokeErr : Bool) (hA : authHeader ≠ "") :
    (postRevokeWrites authHeader revokeErr).getLast? = some 204 ∧
    (revokeErr = true →
      postRevokeWrites authHeader revokeErr = [500, 204]) := by
  simp only [postRevokeWrites, GetBearerToken, if_neg hA]
  cases revokeErr <;> simp

/-- Witness for C9 at the header "Bearer tok" with a failing storage
update: both 500 and 204 are written, in that order. -/
theorem postRevoke_always_writes_204_witness :
    ("Bearer tok" : String) ≠ "" ∧
    (postRevokeWrites "Bearer tok" true).getLast? = some 204 ∧
    postRevokeWrites "Bearer tok" true = [500, 204] :=
  ⟨by decide,
    (postRevoke_always_writes_204 "Bearer tok" true (by decide)).1,
    (postRevoke_always_writes_204 "Bearer tok" true (by decide)).2 rfl⟩

/-- C10: the profanity filter is not total — on the non-empty,
whitespace-only body " " it has no fields, the rebuilt string is empty,
and the final index-1 byte slice panics, aborting the authenticated
chirp-creation handler with no response. -/
theorem cleanString_whitespace_panics :
    (" " : String) ≠ "" ∧ cleanString " " = none ∧
    postChirps [] " " (some 1) 1 0 = none :=
  ⟨by decide, rfl, rfl⟩

/-- C1: the refresh-flow lookup yields a row (whose user id the handler
then mints a token for) iff a stored row for the token exists with
revoked-at null and the current time strictly before its expires-at; every
other state — never issued, revoked, or expired — makes GetRefreshToken
return none and yields one and the same 401 response. -/
theorem redeem_iff_active_row (db : List RefreshTokenRow) (tok : String)
    (secret : String) (now : Nat) :
    ((∃ r ∈ db, r.token = tok ∧ r.revokedAt = none ∧ now < r.expiresAt) ↔
      (GetRefreshToken db tok now).isSome) ∧
    (∀ r, GetRefreshToken db tok now = some r →
      r ∈ db ∧ r.token = tok ∧ r.revokedAt = none ∧ now < r.expiresAt ∧
      postRefreshCore db tok secret now =
        (db, 200, some (MakeJWT r.userID secret 3600 now))) ∧
    (GetRefreshToken db tok now = none →
      postRefreshCore db tok secret now = (db, 401, none)) := by
  refine ⟨?_, ?_, ?_⟩
  · rw [GetRefreshToken, List.find?_isSome]
    constructor
    · rintro ⟨r, hr, h1, h2, h3⟩
      exact ⟨r, hr, by simp [h1, h2, h3]⟩
    · rintro ⟨r, hr, hp⟩
      simp only [Bool.and_eq_true, beq_iff_eq, decide_eq_true_eq] at hp
      exact ⟨r, hr, hp.1.1, hp.1.2, hp.2⟩
  · intro r hr
    have hmem := List.mem_of_find?_eq_some hr
    have hp := List.find?_some hr
    simp only [Bool.and_eq_true, beq_iff_eq, decide_eq_true_eq] at hp
    exact ⟨hmem, hp.1.1, hp.1.2, hp.2, by simp only [postRefreshCore, hr]⟩
  · intro h
    simp only [postRefreshCore, h]

/-- Witness for C1: a single active row for "tok1" (expires at 100, not
revoked) is found at time 50 and redeemed into a fresh token for its
user 42. -/
theorem redeem_iff_active_row_witness :
    postRefreshCore [⟨"tok1", 0, 0, 42, 100, none⟩] "tok1" "s" 50 =
      ([⟨"tok1", 0, 0, 42, 100, none⟩], 200, some (MakeJWT 42 "s" 3600 50)) :=
  ((redeem_iff_active_row [⟨"tok1", 0, 0, 42, 100, none⟩] "tok1" "s"
    50).2.1 ⟨"tok1", 0, 0, 42, 100, none⟩ rfl).2.2.2.2

/-- After RevokeRefreshToken, no lookup of that token succeeds at any
time: every matching row now has revoked-at set. -/
theorem getRefreshToken_after_revoke (db : List RefreshTokenRow)
    (tok : String) (rnow checkNow : Nat) :
    GetRefreshToken (RevokeRefreshToken db tok rnow) tok checkNow = none := by
  rw [GetRefreshToken, List.find?_eq_none]
  intro x hx
  obtain ⟨r, _, rfl⟩ := List.mem_map.mp hx
  by_cases h : r.token = tok <;> simp [h]

/-- C2: once Revoke has been applied to a token, no subsequent Redeem at
any time succeeds; applying Revoke to a never-issued token is a no-op
that completes successfully, and re-revoking keeps the token
unredeemable (monotonic, idempotent transition). -/
theorem revoked_never_redeems (db : List RefreshTokenRow) (tok : String)
    (rnow : Nat) :
    (∀ checkNow : Nat,
      GetRefreshToken (RevokeRefreshToken db tok rnow) tok checkNow =
        none) ∧
    ((∀ r ∈ db, r.token ≠ tok) → RevokeRefreshToken db tok rnow = db) ∧
    (∀ rnow2 checkNow : Nat,
      GetRefreshToken
        (RevokeRefreshToken (RevokeRefreshToken db tok rnow) tok rnow2)
        tok checkNow = none) := by
  refine ⟨fun checkNow => getRefreshToken_after_revoke db tok rnow checkNow,
    ?_, fun rnow2 checkNow =>
      getRefreshToken_after_revoke _ tok rnow2 checkNow⟩
  intro hno
  rw [RevokeRefreshToken]
  have hcongr : ∀ r ∈ db,
      (if r.token == tok then
        { r with revokedAt := some rnow, updatedAt := rnow }
      else r) = id r := by
    intro r hr
    simp [hno r hr]
  rw [List.map_congr_left hcongr, List.map_id]

/-- Witness for C2: revoking "tok1" at time 10 makes its lookup at
time 50 fail even though it would expire only at 100, and revoking the
never-issued "ghost" leaves the table unchanged. -/
theorem revoked_never_redeems_witness :
    GetRefreshToken
      (RevokeRefreshToken [⟨"tok1", 0, 0, 42, 100, none⟩] "tok1" 10)
      "tok1" 50 = none ∧
    RevokeRefreshToken [⟨"tok1", 0, 0, 42, 100, none⟩] "ghost" 10 =
      [⟨"tok1", 0, 0, 42, 100, none⟩] :=
  ⟨(revoked_never_redeems [⟨"tok1", 0, 0, 42, 100, none⟩] "tok1" 10).1 50,
    (revoked_never_redeems [⟨"tok1", 0, 0, 42, 100, none⟩] "ghost" 10).2.1
      (by decide)⟩

/-- C3: the refresh flow never mutates the refresh_tokens state — the
table after postRefresh (with or without the bearer-extraction step) is
the very list it started from, every row and field unchanged; the flow
only mints and returns a new access token. -/
theorem postRefresh_frame (db : List RefreshTokenRow)
    (authHeader tok secret : String) (now : Nat) :
    (postRefreshCore db tok secret now).1 = db ∧
    (postRefreshHandler db authHeader secret now).1 = db := by
  constructor
  · rw [postRefreshCore]
    split <;> rfl
  · rw [postRefreshHandler]
    split
    · rfl
    · rw [postRefreshCore]
      split <;> rfl

/-- C6 counterexample: with one stored user a@b.c (password "pw"), a login
for the unknown email missing@x.y answers 500, while a login for a@b.c
with the wrong password answers 401 — the two failures are
distinguishable by status code, contrary to the claim. -/
theorem login_unknown_email_distinguishable :
    postLogin [⟨1, 0, 0, "a@b.c", HashPassword "pw" 10 0, false⟩]
        "missing@x.y" "pw" "secret" 0 = (500, none, none) ∧
    postLogin [⟨1, 0, 0, "a@b.c", HashPassword "pw" 10 0, false⟩]
        "a@b.c" "wrong" "secret" 0 =
      (401, some "Incorrect email or password", none) ∧
    (500 : Nat) ≠ 401 :=
  ⟨rfl, rfl, by decide⟩

/-- C6 amended: a wrong password for an existing email yields the generic
401 with body "Incorrect email or password" and no hash detail, but an
email matching no user takes the generic database-error branch and yields
500 — the two outcomes are distinguishable by status code. -/
theorem login_failure_statuses (db : List UserRow)
    (email pw secret : String) (now : Nat) :
    (GetUserByEmail db email = none →
      postLogin db email pw secret now = (500, none, none)) ∧
    (∀ row, GetUserByEmail db email = some row →
      CheckPasswordHash pw row.hashedPassword = false →
      postLogin db email pw secret now =
        (401, some "Incorrect email or password", none)) := by
  constructor
  · intro h
    simp [postLogin, h]
  · intro row h hc
    simp [postLogin, h, hc]

/-- Witness for C6's amended claim on the one-user table of the
counterexample's scenario. -/
theorem login_failure_statuses_witness :
    postLogin [⟨1, 0, 0, "a@b.c", HashPassword "pw" 10 0, false⟩]
        "nobody@x.y" "pw" "secret" 0 = (500, none, none) ∧
    postLogin [⟨1, 0, 0, "a@b.c", HashPassword "pw" 10 0, false⟩]
        "a@b.c" "bad" "secret" 0 =
      (401, some "Incorrect email or password", none) :=
  ⟨(login_failure_statuses [⟨1, 0, 0, "a@b.c", HashPassword "pw" 10 0,
      false⟩] "nobody@x.y" "pw" "secret" 0).1 rfl,
    (login_failure_statuses [⟨1, 0, 0, "a@b.c", HashPassword "pw" 10 0,
      false⟩] "a@b.c" "bad" "secret" 0).2
      ⟨1, 0, 0, "a@b.c", HashPassword "pw" 10 0, false⟩ rfl (by decide)⟩

/-- C7: deleting a chirp answers 404 with no change when no chirp has the
given id, whatever the authentication outcome (existence is resolved
before ownership); answers 403 with no change when the authenticated user
is not the owner; and deletes exactly that chirp with 204 when the
authenticated user is the owner. -/
theorem delete_chirp_authorization (db : List ChirpRow) (chirpID : Nat) :
    (GetChirp db chirpID = none →
      ∀ auth : Option Nat,
        deleteChirpsChirpID db chirpID auth = (db, 404)) ∧
    (∀ ch u, GetChirp db chirpID = some ch → ch.userID ≠ u →
      deleteChirpsChirpID db chirpID (some u) = (db, 403)) ∧
    (∀ ch u, GetChirp db chirpID = some ch → ch.userID = u →
      deleteChirpsChirpID db chirpID (some u) =
        (DeleteChirp db chirpID, 204) ∧
      ∀ c ∈ (deleteChirpsChirpID db chirpID (some u)).1,
        c.id ≠ chirpID) := by
  refine ⟨?_, ?_, ?_⟩
  · intro h auth
    simp [deleteChirpsChirpID, h]
  · intro ch u h hne
    simp [deleteChirpsChirpID, h, hne]
  · intro ch u h hu
    have hres : deleteChirpsChirpID db chirpID (some u) =
        (DeleteChirp db chirpID, 204) := by
      simp [deleteChirpsChirpID, h, hu]
    refine ⟨hres, ?_⟩
    rw [hres]
    intro c hc
    have := (List.mem_filter.mp hc).2
    simpa using this

/-- Witness for C7 on a one-chirp table owned by user 42: user 7 gets 403
with the chirp intact, user 42 deletes it with 204, and a missing id is
404 before any authentication. -/
theorem delete_chirp_authorization_witness :
    deleteChirpsChirpID [⟨1, 0, 0, "hi", 42⟩] 1 (some 7) =
      ([⟨1, 0, 0, "hi", 42⟩], 403) ∧
    deleteChirpsChirpID [⟨1, 0, 0, "hi", 42⟩] 1 (some 42) =
      (DeleteChirp [⟨1, 0, 0, "hi", 42⟩] 1, 204) ∧
    deleteChirpsChirpID [⟨1, 0, 0, "hi", 42⟩] 2 none =
      ([⟨1, 0, 0, "hi", 42⟩], 404) :=
  ⟨(delete_chirp_authorization [⟨1, 0, 0, "hi", 42⟩] 1).2.1
      ⟨1, 0, 0, "hi", 42⟩ 7 rfl (by decide),
    ((delete_chirp_authorization [⟨1, 0, 0, "hi", 42⟩] 1).2.2
      ⟨1, 0, 0, "hi", 42⟩ 42 rfl rfl).1,
    (delete_chirp_authorization [⟨1, 0, 0, "hi", 42⟩] 2).1 rfl none⟩
